import Mathlib

/-!
Shallow embedding of the CoalZero-AAAG core calculation engine
(src/utils/emission_factors.py, emissions.py, sinks.py, simulations.py)
over the rationals, with theorems settling the specification claims.
All Python float arithmetic on the decimal constants involved is exact,
so ℚ models it faithfully.
-/

namespace CoalZero

/-! ## Constants (src/utils/emission_factors.py) -/

/-- Diesel combustion factor, kg CO2 per litre. -/
def DIESEL_EMISSION_FACTOR : ℚ := 2.68

/-- Grid electricity factor, kg CO2 per kWh. -/
def ELECTRICITY_EMISSION_FACTOR : ℚ := 0.82

/-- Coal excavation factor, kg CO2 per tonne. -/
def COAL_EXCAVATION_FACTOR : ℚ := 0.15

/-- Transportation factor, kg CO2 per tonne-km. -/
def TRANSPORTATION_FACTOR : ℚ := 0.062

/-- Absorption per hectare per year, kg CO2. -/
def ABSORPTION_PER_HECTARE : ℚ := 10000

/-- Absorption per tree per year, kg CO2. -/
def ABSORPTION_PER_TREE : ℚ := 22

/-- Renewable energy lifecycle factor, kg CO2 per kWh. -/
def RENEWABLE_EMISSION_FACTOR : ℚ := 0.02

/-- Carbon credit price, USD per tonne CO2. -/
def CARBON_CREDIT_PRICE : ℚ := 15

/-- kg per tonne. -/
def KG_TO_TONNES : ℚ := 1000

/-! ## Emissions calculator (src/utils/emissions.py) -/

/-- CO2 emissions from diesel consumption: `litres * DIESEL_EMISSION_FACTOR`. -/
def diesel_emissions (litres : ℚ) : ℚ :=
  litres * DIESEL_EMISSION_FACTOR

/-- CO2 emissions from electricity consumption: `kwh * ELECTRICITY_EMISSION_FACTOR`. -/
def electricity_emissions (kwh : ℚ) : ℚ :=
  kwh * ELECTRICITY_EMISSION_FACTOR

/-- CO2 emissions from coal excavation: `coal_tonnes * COAL_EXCAVATION_FACTOR`. -/
def excavation_emissions (coal_tonnes : ℚ) : ℚ :=
  coal_tonnes * COAL_EXCAVATION_FACTOR

/-- CO2 emissions from coal transportation:
`coal_tonnes * distance_km * TRANSPORTATION_FACTOR`. -/
def transportation_emissions (coal_tonnes distance_km : ℚ) : ℚ :=
  coal_tonnes * distance_km * TRANSPORTATION_FACTOR

/-- Total emissions: sum of the four activity emissions. -/
def total_emissions (diesel_em electricity_em excavation_em transport_em : ℚ) : ℚ :=
  diesel_em + electricity_em + excavation_em + transport_em

/-- Per-capita emissions: `total_em / workers`, returning 0 when `workers == 0`. -/
def per_capita_emissions (total_em workers : ℚ) : ℚ :=
  if workers = 0 then 0 else total_em / workers

/-- Convert emissions from kg to tonnes. -/
def emissions_in_tonnes (emissions_kg : ℚ) : ℚ :=
  emissions_kg / KG_TO_TONNES

/-! ## Sinks calculator (src/utils/sinks.py) -/

/-- Carbon absorption from plantation area: `area_hectares * ABSORPTION_PER_HECTARE`. -/
def carbon_absorption_from_area (area_hectares : ℚ) : ℚ :=
  area_hectares * ABSORPTION_PER_HECTARE

/-- Carbon absorption from trees: `num_trees * ABSORPTION_PER_TREE`. -/
def carbon_absorption_from_trees (num_trees : ℚ) : ℚ :=
  num_trees * ABSORPTION_PER_TREE

/-- Total carbon absorption from area and trees. -/
def total_absorption (area_hectares num_trees : ℚ) : ℚ :=
  carbon_absorption_from_area area_hectares + carbon_absorption_from_trees num_trees

/-- Convert absorption from kg to tonnes. -/
def absorption_in_tonnes (absorption_kg : ℚ) : ℚ :=
  absorption_kg / KG_TO_TONNES

/-- Land area required to offset remaining emissions: 0 when the gap is
non-positive, otherwise `emission_gap_kg / ABSORPTION_PER_HECTARE`. -/
def land_required_for_neutrality (emission_gap_kg : ℚ) : ℚ :=
  if emission_gap_kg ≤ 0 then 0 else emission_gap_kg / ABSORPTION_PER_HECTARE

/-! ## Scenario simulator (src/utils/simulations.py) -/

/-- Reduced diesel emissions after electrifying a percentage of the fleet:
`diesel_emissions * (100 - electrification_percent) / 100`. -/
def simulate_electrification (diesel_em electrification_percent : ℚ) : ℚ :=
  diesel_em * ((100 - electrification_percent) / 100)

/-- Result record of `simulate_renewable_energy` (the Python dict with keys
`total`, `grid`, `renewable`). -/
structure RenewableResult where
  total : ℚ
  grid : ℚ
  renewable : ℚ
deriving Repr, DecidableEq

/-- Electricity emissions after sourcing `renewable_percent` of consumption
from renewables: grid share billed at `ELECTRICITY_EMISSION_FACTOR`,
renewable share at `RENEWABLE_EMISSION_FACTOR`. -/
def simulate_renewable_energy (electricity_kwh renewable_percent : ℚ) : RenewableResult :=
  let grid_percent := (100 - renewable_percent) / 100
  let renewable_fraction := renewable_percent / 100
  let grid_emissions := electricity_kwh * grid_percent * ELECTRICITY_EMISSION_FACTOR
  let renewable_emissions :=
    electricity_kwh * renewable_fraction * RENEWABLE_EMISSION_FACTOR
  { total := grid_emissions + renewable_emissions
    grid := grid_emissions
    renewable := renewable_emissions }

/-- New total absorption after planting additional area and trees. -/
def simulate_afforestation (current_absorption added_area_hectares added_trees : ℚ) : ℚ :=
  current_absorption + carbon_absorption_from_area added_area_hectares +
    carbon_absorption_from_trees added_trees

/-- Indicative carbon credit cost: 0 when the gap is non-positive, otherwise
`emission_gap_tonnes * CARBON_CREDIT_PRICE`. -/
def calculate_carbon_credits (emission_gap_tonnes : ℚ) : ℚ :=
  if emission_gap_tonnes ≤ 0 then 0 else emission_gap_tonnes * CARBON_CREDIT_PRICE

/-- Result record of `combined_simulation`. -/
structure CombinedResult where
  diesel_emissions : ℚ
  electricity_emissions : ℚ
  total_absorption : ℚ
deriving Repr, DecidableEq

/-- Combined simulation of electrification, renewable adoption and
afforestation. -/
def combined_simulation (diesel_em electricity_kwh current_absorption
    electrification_pct renewable_pct added_area added_trees : ℚ) : CombinedResult :=
  let new_diesel_em := simulate_electrification diesel_em electrification_pct
  let new_elec_result := simulate_renewable_energy electricity_kwh renewable_pct
  let new_absorption := simulate_afforestation current_absorption added_area added_trees
  { diesel_emissions := new_diesel_em
    electricity_emissions := new_elec_result.total
    total_absorption := new_absorption }

/-! ## Claims -/

/-- Claim C1 counterexample: every core calculation function is total and
returns a plain value on negative input; none fails with InvalidInput. At
litres = -1 (and likewise for the other functions at negative arguments)
a concrete negative value is returned rather than an error. -/
theorem C1_counterexample :
    diesel_emissions (-1) = -2.68 ∧
    electricity_emissions (-1) = -0.82 ∧
    excavation_emissions (-1) = -0.15 ∧
    transportation_emissions (-1) 1 = -0.062 := by
  refine ⟨?_, ?_, ?_, ?_⟩ <;>
    norm_num [diesel_emissions, electricity_emissions, excavation_emissions,
      transportation_emissions, DIESEL_EMISSION_FACTOR, ELECTRICITY_EMISSION_FACTOR,
      COAL_EXCAVATION_FACTOR, TRANSPORTATION_FACTOR]

/-- Claim C1 (amended): the core calculation functions perform no input
validation. On every negative input each returns its linear formula — a
negative emission value — and never fails: diesel_emissions litres =
litres * 2.68 < 0 for litres < 0, and likewise for electricity, excavation
and transportation emissions. -/
theorem C1_no_validation (litres kwh coal dist : ℚ)
    (hl : litres < 0) (hk : kwh < 0) (hc : coal < 0) (hd : 0 < dist) :
    diesel_emissions litres = litres * DIESEL_EMISSION_FACTOR ∧
    diesel_emissions litres < 0 ∧
    electricity_emissions kwh = kwh * ELECTRICITY_EMISSION_FACTOR ∧
    electricity_emissions kwh < 0 ∧
    excavation_emissions coal = coal * COAL_EXCAVATION_FACTOR ∧
    excavation_emissions coal < 0 ∧
    transportation_emissions coal dist = coal * dist * TRANSPORTATION_FACTOR ∧
    transportation_emissions coal dist < 0 := by
  refine ⟨rfl, ?_, rfl, ?_, rfl, ?_, rfl, ?_⟩
  · exact mul_neg_of_neg_of_pos hl (by norm_num [DIESEL_EMISSION_FACTOR])
  · exact mul_neg_of_neg_of_pos hk (by norm_num [ELECTRICITY_EMISSION_FACTOR])
  · exact mul_neg_of_neg_of_pos hc (by norm_num [COAL_EXCAVATION_FACTOR])
  · exact mul_neg_of_neg_of_pos (mul_neg_of_neg_of_pos hc hd)
      (by norm_num [TRANSPORTATION_FACTOR])

/-- Witness for C1_no_validation at litres = kwh = coal = -1, dist = 1. -/
theorem C1_no_validation_witness :
    diesel_emissions (-1) = (-1) * DIESEL_EMISSION_FACTOR ∧
    diesel_emissions (-1) < 0 ∧
    electricity_emissions (-1) = (-1) * ELECTRICITY_EMISSION_FACTOR ∧
    electricity_emissions (-1) < 0 ∧
    excavation_emissions (-1) = (-1) * COAL_EXCAVATION_FACTOR ∧
    excavation_emissions (-1) < 0 ∧
    transportation_emissions (-1) 1 = (-1) * 1 * TRANSPORTATION_FACTOR ∧
    transportation_emissions (-1) 1 < 0 :=
  C1_no_validation (-1) (-1) (-1) 1 (by norm_num) (by norm_num) (by norm_num) (by norm_num)

/-- Claim C2: per_capita_emissions returns 0 at zero workers for every total
T, and returns exactly T / W for every worker count W > 0. -/
theorem C2_per_capita (T W : ℚ) (hW : 0 < W) :
    per_capita_emissions T 0 = 0 ∧ per_capita_emissions T W = T / W := by
  constructor
  · simp [per_capita_emissions]
  · rw [per_capita_emissions, if_neg (ne_of_gt hW)]

/-- Witness for C2_per_capita at T = 869000, W = 500. -/
theorem C2_per_capita_witness :
    per_capita_emissions 869000 0 = 0 ∧ per_capita_emissions 869000 500 = 869000 / 500 :=
  C2_per_capita 869000 500 (by norm_num)

/-- Claim C3: land_required_for_neutrality is 0 on every gap ≤ 0, equals
gap / 10000 on every gap > 0, is never negative, and is continuous at
gap = 0 (ε-δ over ℚ). -/
theorem C3_land_required (gap : ℚ) :
    (gap ≤ 0 → land_required_for_neutrality gap = 0) ∧
    (0 < gap → land_required_for_neutrality gap = gap / 10000) ∧
    0 ≤ land_required_for_neutrality gap ∧
    (∀ ε : ℚ, 0 < ε → ∃ δ : ℚ, 0 < δ ∧ ∀ g : ℚ, |g - 0| < δ →
      |land_required_for_neutrality g - land_required_for_neutrality 0| < ε) := by
  have hpos : ∀ x : ℚ, 0 < x →
      land_required_for_neutrality x = x / 10000 := by
    intro x hx
    rw [land_required_for_neutrality, if_neg (not_le.2 hx)]
    norm_num [ABSORPTION_PER_HECTARE]
  have hzero : ∀ x : ℚ, x ≤ 0 → land_required_for_neutrality x = 0 := by
    intro x hx
    rw [land_required_for_neutrality, if_pos hx]
  refine ⟨hzero gap, hpos gap, ?_, ?_⟩
  · by_cases h : gap ≤ 0
    · rw [hzero gap h]
    · rw [hpos gap (not_le.1 h)]
      exact le_of_lt (div_pos (not_le.1 h) (by norm_num))
  · intro ε hε
    refine ⟨10000 * ε, by positivity, ?_⟩
    intro g hg
    rw [sub_zero] at hg
    rw [hzero 0 le_rfl, sub_zero]
    by_cases hg0 : g ≤ 0
    · rw [hzero g hg0]
      simpa using hε
    · have hg0 : 0 < g := not_le.1 hg0
      rw [hpos g hg0, abs_of_pos (by positivity)]
      rw [abs_of_pos hg0] at hg
      linarith

/-- Witness for C3_land_required at gap = -5, at gap = 747000, and for
continuity with ε = 1. -/
theorem C3_land_required_witness :
    land_required_for_neutrality (-5) = 0 ∧
    land_required_for_neutrality 747000 = 747000 / 10000 ∧
    0 ≤ land_required_for_neutrality 747000 ∧
    (∃ δ : ℚ, 0 < δ ∧ ∀ g : ℚ, |g - 0| < δ →
      |land_required_for_neutrality g - land_required_for_neutrality 0| < 1) :=
  ⟨(C3_land_required (-5)).1 (by norm_num),
   (C3_land_required 747000).2.1 (by norm_num),
   (C3_land_required 747000).2.2.1,
   (C3_land_required 747000).2.2.2 1 (by norm_num)⟩

/-- Claim C4: calculate_carbon_credits is 0 on every gap ≤ 0 and equals
gap * 15 (the carbon credit price) on every gap > 0. -/
theorem C4_carbon_credits (g : ℚ) :
    (g ≤ 0 → calculate_carbon_credits g = 0) ∧
    (0 < g → calculate_carbon_credits g = g * 15) := by
  constructor
  · intro h
    rw [calculate_carbon_credits, if_pos h]
  · intro h
    rw [calculate_carbon_credits, if_neg (not_le.2 h)]
    norm_num [CARBON_CREDIT_PRICE]

/-- Witness for C4_carbon_credits at g = -3 and g = 262.8. -/
theorem C4_carbon_credits_witness :
    calculate_carbon_credits (-3) = 0 ∧ calculate_carbon_credits 262.8 = 262.8 * 15 :=
  ⟨(C4_carbon_credits (-3)).1 (by norm_num),
   (C4_carbon_credits 262.8).2 (by norm_num)⟩

/-- Claim C5: simulate_renewable_energy returns grid = kwh * (100-pct)/100 *
0.82, renewable = kwh * pct/100 * 0.02, and total = grid + renewable, for
every kwh and pct. -/
theorem C5_renewable_split (kwh pct : ℚ) :
    (simulate_renewable_energy kwh pct).grid = kwh * (100 - pct) / 100 * 0.82 ∧
    (simulate_renewable_energy kwh pct).renewable = kwh * pct / 100 * 0.02 ∧
    (simulate_renewable_energy kwh pct).total =
      (simulate_renewable_energy kwh pct).grid +
        (simulate_renewable_energy kwh pct).renewable := by
  refine ⟨?_, ?_, rfl⟩
  · show kwh * ((100 - pct) / 100) * ELECTRICITY_EMISSION_FACTOR = _
    rw [ELECTRICITY_EMISSION_FACTOR]
    ring_nf
  · show kwh * (pct / 100) * RENEWABLE_EMISSION_FACTOR = _
    rw [RENEWABLE_EMISSION_FACTOR]
    ring_nf

/-- Claim C6: scenario example 1. With diesel = 50000 L, electricity =
500000 kWh, coal = 100000 t, distance = 50 km, workers = 500, plantation =
10 ha, trees = 1000, the calculator returns diesel 134000 kg, electricity
410000 kg, excavation 15000 kg, transport 310000 kg, total 869000 kg,
absorption 122000 kg, gap 747.0 t, per-capita 1738.0 kg/person, and
land_required_for_neutrality 747000 = 74.7 ha. -/
theorem C6_scenario_example_1 :
    diesel_emissions 50000 = 134000 ∧
    electricity_emissions 500000 = 410000 ∧
    excavation_emissions 100000 = 15000 ∧
    transportation_emissions 100000 50 = 310000 ∧
    total_emissions 134000 410000 15000 310000 = 869000 ∧
    total_absorption 10 1000 = 122000 ∧
    (total_emissions 134000 410000 15000 310000 - total_absorption 10 1000) /
      KG_TO_TONNES = 747 ∧
    per_capita_emissions 869000 500 = 1738 ∧
    land_required_for_neutrality 747000 = 74.7 := by
  refine ⟨?_, ?_, ?_, ?_, ?_, ?_, ?_, ?_, ?_⟩ <;>
    norm_num [diesel_emissions, electricity_emissions, excavation_emissions,
      transportation_emissions, total_emissions, total_absorption,
      carbon_absorption_from_area, carbon_absorption_from_trees,
      per_capita_emissions, land_required_for_neutrality,
      DIESEL_EMISSION_FACTOR, ELECTRICITY_EMISSION_FACTOR, COAL_EXCAVATION_FACTOR,
      TRANSPORTATION_FACTOR, ABSORPTION_PER_HECTARE, ABSORPTION_PER_TREE,
      KG_TO_TONNES]

/-- Claim C7: scenario example 2. From example 1, combined_simulation with
electrification 30 %, renewables 50 %, 20 added ha and 2000 added trees
returns diesel 93800 kg, electricity 210000 kg (grid 205000 kg plus
renewable 5000 kg) and absorption 366000 kg; re-adding excavation 15000 kg
and transport 310000 kg gives total 628800 kg, gap 262.8 t, and
calculate_carbon_credits 262.8 = 3942 USD. -/
theorem C7_scenario_example_2 :
    (combined_simulation 134000 500000 122000 30 50 20 2000).diesel_emissions = 93800 ∧
    (combined_simulation 134000 500000 122000 30 50 20 2000).electricity_emissions =
      210000 ∧
    (simulate_renewable_energy 500000 50).grid = 205000 ∧
    (simulate_renewable_energy 500000 50).renewable = 5000 ∧
    (combined_simulation 134000 500000 122000 30 50 20 2000).total_absorption = 366000 ∧
    total_emissions 93800 210000 15000 310000 = 628800 ∧
    (total_emissions 93800 210000 15000 310000 - 366000) / KG_TO_TONNES = 262.8 ∧
    calculate_carbon_credits 262.8 = 3942 := by
  refine ⟨?_, ?_, ?_, ?_, ?_, ?_, ?_, ?_⟩ <;>
    norm_num [combined_simulation, simulate_electrification, simulate_renewable_energy,
      simulate_afforestation, carbon_absorption_from_area, carbon_absorption_from_trees,
      total_emissions, calculate_carbon_credits, ELECTRICITY_EMISSION_FACTOR,
      RENEWABLE_EMISSION_FACTOR, ABSORPTION_PER_HECTARE, ABSORPTION_PER_TREE,
      CARBON_CREDIT_PRICE, KG_TO_TONNES]

/-- Claim C8: round-trip between area absorption and land requirement. For
every h ≥ 0, carbon_absorption_from_area h / 10000 = h, and for every
h > 0, land_required_for_neutrality (carbon_absorption_from_area h) = h. -/
theorem C8_roundtrip (h : ℚ) (_h0 : 0 ≤ h) :
    carbon_absorption_from_area h / 10000 = h ∧
    (0 < h → land_required_for_neutrality (carbon_absorption_from_area h) = h) := by
  have habs : carbon_absorption_from_area h = h * 10000 := by
    rw [carbon_absorption_from_area, ABSORPTION_PER_HECTARE]
  constructor
  · rw [habs]
    field_simp
  · intro hpos
    rw [habs, land_required_for_neutrality, if_neg (by push_neg; positivity),
      ABSORPTION_PER_HECTARE]
    field_simp

/-- Witness for C8_roundtrip at h = 10. -/
theorem C8_roundtrip_witness :
    carbon_absorption_from_area 10 / 10000 = 10 ∧
    land_required_for_neutrality (carbon_absorption_from_area 10) = 10 :=
  ⟨(C8_roundtrip 10 (by norm_num)).1, (C8_roundtrip 10 (by norm_num)).2 (by norm_num)⟩

/-- Claim C9: simulate_electrification returns exactly d * (100 - pct) / 100
for every d and pct, with no clamping and no error; for d > 0 and pct > 100
the result is negative, and for d > 0 and pct < 0 the result exceeds d. -/
theorem C9_electrification (d pct : ℚ) :
    simulate_electrification d pct = d * (100 - pct) / 100 ∧
    (0 < d → 100 < pct → simulate_electrification d pct < 0) ∧
    (0 < d → pct < 0 → d < simulate_electrification d pct) := by
  refine ⟨by rw [simulate_electrification]; ring, ?_, ?_⟩
  · intro hd hp
    rw [simulate_electrification]
    exact mul_neg_of_pos_of_neg hd (div_neg_of_neg_of_pos (by linarith) (by norm_num))
  · intro hd hp
    rw [simulate_electrification]
    have h1 : (1 : ℚ) < (100 - pct) / 100 := (one_lt_div (by norm_num)).2 (by linarith)
    exact (lt_mul_iff_one_lt_right hd).2 h1

/-- Witness for C9_electrification at d = 10 with pct = 150 and pct = -50. -/
theorem C9_electrification_witness :
    simulate_electrification 10 150 = 10 * (100 - 150) / 100 ∧
    simulate_electrification 10 150 < 0 ∧
    10 < simulate_electrification 10 (-50) :=
  ⟨(C9_electrification 10 150).1,
   (C9_electrification 10 150).2.1 (by norm_num) (by norm_num),
   (C9_electrification 10 (-50)).2.2 (by norm_num) (by norm_num)⟩

/-- Closed form of the total electricity emissions after the renewable
split: 0.82·kwh minus 0.008·kwh per percentage point. -/
theorem renewable_total_closed (kwh pct : ℚ) :
    (simulate_renewable_energy kwh pct).total =
      kwh * 0.82 - kwh * pct * 0.008 := by
  show kwh * ((100 - pct) / 100) * ELECTRICITY_EMISSION_FACTOR +
      kwh * (pct / 100) * RENEWABLE_EMISSION_FACTOR = _
  rw [ELECTRICITY_EMISSION_FACTOR, RENEWABLE_EMISSION_FACTOR]
  ring_nf

/-- Claim C10: for every kwh ≥ 0 and pct in [0, 100], the total of
simulate_renewable_energy is at most electricity_emissions kwh, at least
kwh * 0.02, and non-increasing in the renewable percentage. -/
theorem C10_renewable_bounds (kwh pct : ℚ)
    (hk : 0 ≤ kwh) (h0 : 0 ≤ pct) (h1 : pct ≤ 100) :
    (simulate_renewable_energy kwh pct).total ≤ electricity_emissions kwh ∧
    kwh * 0.02 ≤ (simulate_renewable_energy kwh pct).total ∧
    (∀ q : ℚ, pct ≤ q → q ≤ 100 →
      (simulate_renewable_energy kwh q).total ≤
        (simulate_renewable_energy kwh pct).total) := by
  rw [renewable_total_closed, electricity_emissions, ELECTRICITY_EMISSION_FACTOR]
  refine ⟨?_, ?_, ?_⟩
  · nlinarith [mul_nonneg hk h0]
  · nlinarith [mul_nonneg hk (sub_nonneg.2 h1)]
  · intro q hq _
    rw [renewable_total_closed]
    nlinarith [mul_nonneg hk (sub_nonneg.2 hq)]

/-- Witness for C10_renewable_bounds at kwh = 500000, pct = 50, q = 80. -/
theorem C10_renewable_bounds_witness :
    (simulate_renewable_energy 500000 50).total ≤ electricity_emissions 500000 ∧
    500000 * (0.02 : ℚ) ≤ (simulate_renewable_energy 500000 50).total ∧
    (simulate_renewable_energy 500000 80).total ≤
      (simulate_renewable_energy 500000 50).total :=
  ⟨(C10_renewable_bounds 500000 50 (by norm_num) (by norm_num) (by norm_num)).1,
   (C10_renewable_bounds 500000 50 (by norm_num) (by norm_num) (by norm_num)).2.1,
   (C10_renewable_bounds 500000 50 (by norm_num) (by norm_num) (by norm_num)).2.2
     80 (by norm_num) (by norm_num)⟩

end CoalZero
